import Mathlib

/- Verification development for the Solar-X climate-twin solar-tracker
   simulator (src/app.py). The simulation engine is embedded shallowly:
   Python floats become real numbers, numpy's global random source becomes
   an explicitly threaded stream of rationals in [0,1), and the Streamlit
   session state mutated by the per-tick rerun loop becomes an explicit
   state record transformed by a step function. -/

namespace SolarX

/-! ## Python / numpy primitives -/

/-- Python `int()` on a real: truncation toward zero. -/
noncomputable def pyInt (x : ℝ) : ℤ := if 0 ≤ x then ⌊x⌋ else ⌈x⌉

/-- Python `int()` on a rational (used for the energy accumulator). -/
def pyIntQ (x : ℚ) : ℤ := if 0 ≤ x then ⌊x⌋ else ⌈x⌉

/-- Round to nearest integer, ties to even (Python `round`). -/
noncomputable def roundHalfEven (y : ℝ) : ℤ :=
  if Int.fract y = 1/2 then (if Even ⌊y⌋ then ⌊y⌋ else ⌊y⌋ + 1) else round y

/-- Python `round(x, 1)`. -/
noncomputable def pyRound1 (x : ℝ) : ℝ := (roundHalfEven (10 * x) : ℝ) / 10

/-- `np.clip(x, lo, hi)`. -/
noncomputable def npClip (x lo hi : ℝ) : ℝ := min hi (max lo x)

/-- `math.radians`. -/
noncomputable def radians (deg : ℝ) : ℝ := deg * (Real.pi / 180)

/-- The process-wide numpy random source, modelled as a stream of rationals
    in `[0,1)`; drawing pops the head (an exhausted stream yields 0). -/
def draw : List ℚ → ℚ × List ℚ
  | [] => (0, [])
  | u :: r => (u, r)

/-- `np.random.randint(lo, hi)`: an integer in `[lo, hi)`. -/
def randint (lo hi : ℤ) (u : ℚ) : ℤ := lo + ⌊u * ((hi : ℚ) - (lo : ℚ))⌋

/-- `np.random.uniform(lo, hi)`. -/
def uniform (lo hi u : ℚ) : ℚ := lo + u * (hi - lo)

/-! ## Configuration constants (src/app.py lines 11-14) -/

def MINUTES_PER_TICK : ℕ := 30

def MAX_ROTATION : ℝ := 60

def PANEL_CAPACITY : ℝ := 250

/-! ## Proleptic Gregorian calendar (Python datetime and timedelta) -/

structure Date where
  year : ℕ
  month : ℕ
  day : ℕ
  deriving DecidableEq

def isLeapYear (y : ℕ) : Bool := (y % 4 == 0 && y % 100 != 0) || (y % 400 == 0)

def daysInMonth (y m : ℕ) : ℕ :=
  match m with
  | 2 => if isLeapYear y then 29 else 28
  | 4 => 30 | 6 => 30 | 9 => 30 | 11 => 30
  | _ => 31

def nextDate (d : Date) : Date :=
  if d.day < daysInMonth d.year d.month then ⟨d.year, d.month, d.day + 1⟩
  else if d.month < 12 then ⟨d.year, d.month + 1, 1⟩
  else ⟨d.year + 1, 1, 1⟩

def prevDate (d : Date) : Date :=
  if 1 < d.day then ⟨d.year, d.month, d.day - 1⟩
  else if 1 < d.month then ⟨d.year, d.month - 1, daysInMonth d.year (d.month - 1)⟩
  else ⟨d.year - 1, 12, 31⟩

def monthAbbrev (m : ℕ) : String :=
  match m with
  | 1 => "Jan" | 2 => "Feb" | 3 => "Mar" | 4 => "Apr" | 5 => "May" | 6 => "Jun"
  | 7 => "Jul" | 8 => "Aug" | 9 => "Sep" | 10 => "Oct" | 11 => "Nov" | 12 => "Dec"
  | _ => ""

def ValidDate (d : Date) : Prop :=
  1 ≤ d.month ∧ d.month ≤ 12 ∧ 1 ≤ d.day ∧ d.day ≤ daysInMonth d.year d.month

instance (d : Date) : Decidable (ValidDate d) :=
  inferInstanceAs (Decidable (_ ∧ _ ∧ _ ∧ _))

structure Time where
  date : Date
  minuteOfDay : ℕ
  deriving DecidableEq

def hourN (t : Time) : ℕ := t.minuteOfDay / 60

def minuteN (t : Time) : ℕ := t.minuteOfDay % 60

/-- `current_time.hour + current_time.minute / 60` as an exact rational. -/
def hourQ (t : Time) : ℚ := (hourN t : ℚ) + (minuteN t : ℚ) / 60

/-- `t + timedelta(minutes = k)`. -/
def addMinutes (t : Time) (k : ℕ) : Time :=
  ⟨nextDate^[(t.minuteOfDay + k) / 1440] t.date, (t.minuteOfDay + k) % 1440⟩

/-! ## The climate engine (src/app.py lines 26-60) -/

/-- `get_climate_profile`: one randomized draw of (max day temperature,
    weather attenuation factor, condition label) for the month of the given
    date, threading the random stream.  The base values (30, 1.0, "Sunny")
    of lines 30-32 are overwritten on every branch of the seasonal chain
    and so do not appear. -/
def get_climate_profile (date_obj : Date) (rng : List ℚ) :
    (ℤ × ℚ × String) × List ℚ :=
  let month := date_obj.month
  if 4 ≤ month ∧ month ≤ 6 then
    let d1 := draw rng
    let d2 := draw d1.2
    ((randint 38 45 d1.1, (uniform (9/10) 1 d2.1, "Clear")), d2.2)
  else if 10 ≤ month ∧ month ≤ 12 then
    let d1 := draw rng
    let d2 := draw d1.2
    if d2.1 < 3/10 then
      let d3 := draw d2.2
      ((randint 25 30 d1.1, (uniform (1/10) (4/10) d3.1, "Rain/Overcast")), d3.2)
    else
      let d3 := draw d2.2
      ((randint 25 30 d1.1, (uniform (6/10) (8/10) d3.1, "Cloudy")), d3.2)
  else if 1 ≤ month ∧ month ≤ 2 then
    let d1 := draw rng
    let d2 := draw d1.2
    ((randint 24 28 d1.1, (uniform (8/10) (95/100) d2.1, "Sunny")), d2.2)
  else
    let d1 := draw rng
    let d2 := draw d1.2
    ((randint 32 36 d1.1, (uniform (7/10) 1 d2.1, "Partly Cloudy")), d2.2)

/-! ## The physics engine (src/app.py lines 96-130) -/

/-- The local values of the daylight branch of `get_live_telemetry`
    (src/app.py lines 102-117); the returned dict exposes only `power`
    and the rounded temperatures, the rest are branch-local variables. -/
structure DayVals where
  sun_angle : ℝ
  base_intensity : ℝ
  real_intensity : ℝ
  irradiance : ℤ
  ambient : ℝ
  wax : ℝ
  target_angle : ℝ
  panel_angle : ℝ
  error : ℝ
  efficiency : ℝ
  power : ℤ

/-- The daylight branch of `get_live_telemetry` (src/app.py lines 102-117). -/
noncomputable def dayCompute (hour : ℝ) (peak_temp_today : ℤ)
    (weather_factor_today : ℚ) : DayVals :=
  let sun_angle := (hour - 12) * 15
  let base_intensity := Real.sin ((hour - 6) / 12 * Real.pi)
  let real_intensity := base_intensity * (weather_factor_today : ℝ)
  let irradiance := pyInt (max 0 (real_intensity * 1000))
  let ambient := 25 + real_intensity * ((peak_temp_today : ℝ) - 25)
  let wax := ambient + real_intensity * 40
  let target_angle := -MAX_ROTATION + ((wax - 35) / 40 * (MAX_ROTATION * 2))
  let panel_angle := npClip target_angle (-MAX_ROTATION) MAX_ROTATION
  let error := |sun_angle - panel_angle|
  let efficiency := Real.cos (radians error)
  let power := pyInt ((irradiance : ℝ) * (PANEL_CAPACITY / 1000) * max 0 efficiency)
  ⟨sun_angle, base_intensity, real_intensity, irradiance, ambient, wax,
   target_angle, panel_angle, error, efficiency, power⟩

/-- The dict returned by `get_live_telemetry` (src/app.py lines 123-130),
    together with the branch-independent local profile draws and, for the
    daylight branch, its local values (`internals`); the night branch
    computes no panel angle, so `internals` is `none` there and the dict
    itself never holds a panel angle. -/
structure TelemetryReading where
  str_time : ℕ × ℕ
  power : ℤ
  ambient : ℝ
  wax : ℝ
  is_day : Bool
  condition : String
  peak_temp_today : ℤ
  weather_factor_today : ℚ
  internals : Option DayVals

/-- `get_live_telemetry` (src/app.py lines 96-130); the profile is drawn
    afresh from the random stream on every call. -/
noncomputable def get_live_telemetry (current_time : Time) (rng : List ℚ) :
    TelemetryReading × List ℚ :=
  let pr := get_climate_profile current_time.date rng
  let peak_temp_today := pr.1.1
  let weather_factor_today := pr.1.2.1
  let cond := pr.1.2.2
  let hour := hourQ current_time
  if 6 ≤ hour ∧ hour ≤ 18 then
    let dv := dayCompute (hour : ℝ) peak_temp_today weather_factor_today
    (⟨(hourN current_time, minuteN current_time), dv.power, pyRound1 dv.ambient,
      pyRound1 dv.wax, true, cond, peak_temp_today, weather_factor_today, some dv⟩,
     pr.2)
  else
    (⟨(hourN current_time, minuteN current_time), 0, pyRound1 22, pyRound1 22,
      false, cond, peak_temp_today, weather_factor_today, none⟩, pr.2)

/-! ## The main loop (src/app.py lines 133-154) -/

/-- One row of `history_db` (src/app.py lines 82-89 and 144-151). -/
structure DailyRecord where
  date : Date
  year : ℕ
  month : String
  condition : String
  peak_Temp_C : ℤ
  yield_Wh : ℤ

/-- The Streamlit session state driven by the per-rerun main loop. -/
structure SimState where
  sim_time : Time
  energy_today : ℚ
  live_power : List ((ℕ × ℕ) × ℤ)
  history_db : List DailyRecord
  rng : List ℚ

/-- One pass of the main loop (src/app.py lines 133-154): compute telemetry,
    accumulate energy, append the live point, advance the clock by one tick
    and, exactly when the new time is midnight, archive the finished day and
    reset the accumulator and the live buffer. -/
noncomputable def step (s : SimState) : SimState :=
  let dr := get_live_telemetry s.sim_time s.rng
  let data := dr.1
  let step_wh : ℚ := (data.power : ℚ) * ((MINUTES_PER_TICK : ℚ) / 60)
  let energy := s.energy_today + step_wh
  let live := s.live_power ++ [(data.str_time, data.power)]
  let t' := addMinutes s.sim_time MINUTES_PER_TICK
  if hourN t' = 0 ∧ minuteN t' = 0 then
    { sim_time := t'
      energy_today := 0
      live_power := []
      history_db := s.history_db ++
        [{ date := prevDate t'.date
           year := t'.date.year
           month := monthAbbrev t'.date.month
           condition := data.condition
           peak_Temp_C := pyInt data.ambient
           yield_Wh := pyIntQ energy }]
      rng := dr.2 }
  else
    { sim_time := t'
      energy_today := energy
      live_power := live
      history_db := s.history_db
      rng := dr.2 }

/-- The power drawn by the tick executed from state `s`. -/
noncomputable def tickPower (s : SimState) : ℤ :=
  (get_live_telemetry s.sim_time s.rng).1.power

/-! ## Definitions taken from the words of the spec, for comparison -/

/-- Modelled from the spec: the deadband differential of about 10 degrees. -/
def DEADBAND : ℝ := 10

/-- Modelled from the spec: `sun_angle = progress*180 - 90` with
    `progress = (hour - sunrise)/(sunset - sunrise)` for the code's fixed
    window sunrise = 6, sunset = 18. -/
noncomputable def specSunAngle (hour : ℝ) : ℝ := ((hour - 6) / (18 - 6)) * 180 - 90

/-- Modelled from the spec: the closed condition-label set of its data model. -/
def specConditionLabels : List String :=
  ["Sunny", "Cloudy", "Rainy", "Heatwave", "Overcast", "Clear"]

/-- The condition labels the code can produce. -/
def codeConditionLabels : List String :=
  ["Sunny", "Clear", "Cloudy", "Rain/Overcast", "Partly Cloudy"]

/-! ## Basic lemmas on the primitives -/

lemma pyInt_of_nonneg {x : ℝ} (h : 0 ≤ x) : pyInt x = ⌊x⌋ := if_pos h

lemma pyInt_nonneg {x : ℝ} (h : 0 ≤ x) : 0 ≤ pyInt x := by
  rw [pyInt_of_nonneg h]; exact Int.floor_nonneg.mpr h

lemma pyInt_intCast (n : ℤ) : pyInt (n : ℝ) = n := by
  unfold pyInt
  split
  · exact Int.floor_intCast n
  · exact Int.ceil_intCast n

lemma pyIntQ_of_nonneg {x : ℚ} (h : 0 ≤ x) : pyIntQ x = ⌊x⌋ := if_pos h

lemma roundHalfEven_intCast (n : ℤ) : roundHalfEven (n : ℝ) = n := by
  unfold roundHalfEven
  rw [Int.fract_intCast]
  norm_num

lemma pyRound1_intCast (n : ℤ) : pyRound1 (n : ℝ) = n := by
  unfold pyRound1
  have h : (10 : ℝ) * (n : ℝ) = ((10 * n : ℤ) : ℝ) := by push_cast; ring
  rw [h, roundHalfEven_intCast]
  push_cast; ring

lemma pyRound1_22 : pyRound1 (22 : ℝ) = 22 := by
  have h := pyRound1_intCast 22
  norm_num at h
  exact h

lemma draw_fst_mem {s : List ℚ} (hs : ∀ u ∈ s, 0 ≤ u ∧ u < 1) :
    0 ≤ (draw s).1 ∧ (draw s).1 < 1 := by
  cases s with
  | nil => simp [draw]
  | cons u r => simpa [draw] using hs u (by simp)

lemma draw_snd_mem {s : List ℚ} (hs : ∀ u ∈ s, 0 ≤ u ∧ u < 1) :
    ∀ u ∈ (draw s).2, 0 ≤ u ∧ u < 1 := by
  cases s with
  | nil => simp [draw]
  | cons u r =>
    intro v hv
    simp only [draw] at hv
    exact hs v (List.mem_cons_of_mem _ hv)

lemma randint_bounds (lo hi : ℤ) (u : ℚ) (h0 : 0 ≤ u) (h1 : u < 1) (hlh : lo < hi) :
    lo ≤ randint lo hi u ∧ randint lo hi u < hi := by
  unfold randint
  have hd : (0 : ℚ) < (hi : ℚ) - (lo : ℚ) := by
    have : (lo : ℚ) < (hi : ℚ) := by exact_mod_cast hlh
    linarith
  constructor
  · have hnn : (0 : ℚ) ≤ u * ((hi : ℚ) - (lo : ℚ)) := mul_nonneg h0 (le_of_lt hd)
    have := Int.floor_nonneg.mpr hnn
    omega
  · have hlt : u * ((hi : ℚ) - (lo : ℚ)) < ((hi - lo : ℤ) : ℚ) := by
      push_cast
      nlinarith
    have := Int.floor_lt.mpr hlt
    omega

lemma uniform_bounds (lo hi u : ℚ) (h0 : 0 ≤ u) (h1 : u < 1) (hlo : 0 ≤ lo)
    (hlh : lo ≤ hi) (hhi : hi ≤ 1) : 0 ≤ uniform lo hi u ∧ uniform lo hi u ≤ 1 := by
  unfold uniform
  constructor <;> nlinarith

/-! ## Lemmas on the climate engine -/

lemma get_climate_profile_month (d1 d2 : Date) (s : List ℚ) (h : d1.month = d2.month) :
    get_climate_profile d1 s = get_climate_profile d2 s := by
  unfold get_climate_profile
  rw [h]

lemma get_climate_profile_bounds (d : Date) (s : List ℚ)
    (hs : ∀ u ∈ s, 0 ≤ u ∧ u < 1) :
    (24 ≤ (get_climate_profile d s).1.1 ∧ (get_climate_profile d s).1.1 ≤ 44)
    ∧ (0 ≤ (get_climate_profile d s).1.2.1 ∧ (get_climate_profile d s).1.2.1 ≤ 1)
    ∧ (get_climate_profile d s).1.2.2 ∈ codeConditionLabels := by
  have h1 := draw_fst_mem hs
  have h1' := draw_snd_mem hs
  have h2 := draw_fst_mem h1'
  have h2' := draw_snd_mem h1'
  have h3 := draw_fst_mem h2'
  simp only [get_climate_profile]
  split_ifs
  all_goals dsimp only
  · have hp := randint_bounds 38 45 (draw s).1 h1.1 h1.2 (by norm_num)
    have hw := uniform_bounds (9/10) 1 (draw (draw s).2).1 h2.1 h2.2
      (by norm_num) (by norm_num) (by norm_num)
    refine ⟨⟨by omega, by omega⟩, ⟨hw.1, hw.2⟩, by simp [codeConditionLabels]⟩
  · have hp := randint_bounds 25 30 (draw s).1 h1.1 h1.2 (by norm_num)
    have hw := uniform_bounds (1/10) (4/10) (draw (draw (draw s).2).2).1 h3.1 h3.2
      (by norm_num) (by norm_num) (by norm_num)
    refine ⟨⟨by omega, by omega⟩, ⟨hw.1, hw.2⟩, by simp [codeConditionLabels]⟩
  · have hp := randint_bounds 25 30 (draw s).1 h1.1 h1.2 (by norm_num)
    have hw := uniform_bounds (6/10) (8/10) (draw (draw (draw s).2).2).1 h3.1 h3.2
      (by norm_num) (by norm_num) (by norm_num)
    refine ⟨⟨by omega, by omega⟩, ⟨hw.1, hw.2⟩, by simp [codeConditionLabels]⟩
  · have hp := randint_bounds 24 28 (draw s).1 h1.1 h1.2 (by norm_num)
    have hw := uniform_bounds (8/10) (95/100) (draw (draw s).2).1 h2.1 h2.2
      (by norm_num) (by norm_num) (by norm_num)
    refine ⟨⟨by omega, by omega⟩, ⟨hw.1, hw.2⟩, by simp [codeConditionLabels]⟩
  · have hp := randint_bounds 32 36 (draw s).1 h1.1 h1.2 (by norm_num)
    have hw := uniform_bounds (7/10) 1 (draw (draw s).2).1 h2.1 h2.2
      (by norm_num) (by norm_num) (by norm_num)
    refine ⟨⟨by omega, by omega⟩, ⟨hw.1, hw.2⟩, by simp [codeConditionLabels]⟩

/-! ## Lemmas on the clock -/

lemma hourQ_eq (t : Time) : hourQ t = (t.minuteOfDay : ℚ) / 60 := by
  have h := Nat.div_add_mod t.minuteOfDay 60
  have h2 : (60 : ℚ) * ((t.minuteOfDay / 60 : ℕ) : ℚ) + ((t.minuteOfDay % 60 : ℕ) : ℚ)
      = (t.minuteOfDay : ℚ) := by exact_mod_cast h
  unfold hourQ hourN minuteN
  field_simp
  linarith

lemma addMinutes_lt (t : Time) (k : ℕ) (h : t.minuteOfDay + k < 1440) :
    addMinutes t k = ⟨t.date, t.minuteOfDay + k⟩ := by
  unfold addMinutes
  rw [Nat.div_eq_of_lt h, Nat.mod_eq_of_lt h]
  rfl

lemma addMinutes_roll (t : Time) (h : t.minuteOfDay = 1410) :
    addMinutes t 30 = ⟨nextDate t.date, 0⟩ := by
  unfold addMinutes
  rw [h]
  norm_num

/-! ## Lemmas on the physics engine -/

lemma get_live_telemetry_peak (t : Time) (s : List ℚ) :
    (get_live_telemetry t s).1.peak_temp_today = (get_climate_profile t.date s).1.1 := by
  simp only [get_live_telemetry]
  split <;> rfl

lemma get_live_telemetry_wf (t : Time) (s : List ℚ) :
    (get_live_telemetry t s).1.weather_factor_today
      = (get_climate_profile t.date s).1.2.1 := by
  simp only [get_live_telemetry]
  split <;> rfl

lemma get_live_telemetry_cond (t : Time) (s : List ℚ) :
    (get_live_telemetry t s).1.condition = (get_climate_profile t.date s).1.2.2 := by
  simp only [get_live_telemetry]
  split <;> rfl

lemma get_live_telemetry_rng (t : Time) (s : List ℚ) :
    (get_live_telemetry t s).2 = (get_climate_profile t.date s).2 := by
  simp only [get_live_telemetry]
  split <;> rfl

lemma get_live_telemetry_day (t : Time) (s : List ℚ)
    (h1 : 6 ≤ hourQ t) (h2 : hourQ t ≤ 18) :
    get_live_telemetry t s =
      ({ str_time := (hourN t, minuteN t)
         power := (dayCompute ((hourQ t : ℚ) : ℝ) (get_climate_profile t.date s).1.1
           (get_climate_profile t.date s).1.2.1).power
         ambient := pyRound1 (dayCompute ((hourQ t : ℚ) : ℝ) (get_climate_profile t.date s).1.1
           (get_climate_profile t.date s).1.2.1).ambient
         wax := pyRound1 (dayCompute ((hourQ t : ℚ) : ℝ) (get_climate_profile t.date s).1.1
           (get_climate_profile t.date s).1.2.1).wax
         is_day := true
         condition := (get_climate_profile t.date s).1.2.2
         peak_temp_today := (get_climate_profile t.date s).1.1
         weather_factor_today := (get_climate_profile t.date s).1.2.1
         internals := some (dayCompute ((hourQ t : ℚ) : ℝ) (get_climate_profile t.date s).1.1
           (get_climate_profile t.date s).1.2.1) },
       (get_climate_profile t.date s).2) := by
  simp only [get_live_telemetry]
  rw [if_pos ⟨h1, h2⟩]

lemma get_live_telemetry_night (t : Time) (s : List ℚ)
    (h : ¬(6 ≤ hourQ t ∧ hourQ t ≤ 18)) :
    get_live_telemetry t s =
      ({ str_time := (hourN t, minuteN t)
         power := 0
         ambient := pyRound1 22
         wax := pyRound1 22
         is_day := false
         condition := (get_climate_profile t.date s).1.2.2
         peak_temp_today := (get_climate_profile t.date s).1.1
         weather_factor_today := (get_climate_profile t.date s).1.2.1
         internals := none },
       (get_climate_profile t.date s).2) := by
  simp only [get_live_telemetry]
  rw [if_neg h]

lemma dayCompute_irradiance_nonneg (h : ℝ) (p : ℤ) (w : ℚ) :
    0 ≤ (dayCompute h p w).irradiance := by
  simp only [dayCompute]
  exact pyInt_nonneg (le_max_left 0 _)

lemma dayCompute_power_nonneg (h : ℝ) (p : ℤ) (w : ℚ) :
    0 ≤ (dayCompute h p w).power := by
  have hirr := dayCompute_irradiance_nonneg h p w
  simp only [dayCompute] at hirr ⊢
  refine pyInt_nonneg (mul_nonneg (mul_nonneg ?_ ?_) (le_max_left 0 _))
  · exact_mod_cast hirr
  · norm_num [PANEL_CAPACITY]

lemma tickPower_nonneg (s : SimState) : 0 ≤ tickPower s := by
  simp only [tickPower, get_live_telemetry]
  split
  · exact dayCompute_power_nonneg _ _ _
  · simp

/-! ## Lemmas on the calendar -/

lemma daysInMonth_pos (y m : ℕ) : 1 ≤ daysInMonth y m := by
  unfold daysInMonth
  split
  · split <;> norm_num
  all_goals norm_num

lemma ValidDate_nextDate {d : Date} (h : ValidDate d) : ValidDate (nextDate d) := by
  obtain ⟨y, m, day⟩ := d
  obtain ⟨h1, h2, h3, h4⟩ := h
  dsimp only at h1 h2 h3 h4
  unfold nextDate
  dsimp only
  split_ifs with hA hB
  · have hp := daysInMonth_pos y m
    exact ⟨h1, h2, by dsimp only; omega, by dsimp only; omega⟩
  · have hp := daysInMonth_pos y (m + 1)
    exact ⟨by dsimp only; omega, by dsimp only; omega, le_refl 1, by dsimp only; omega⟩
  · have hp := daysInMonth_pos (y + 1) 1
    exact ⟨by dsimp only; omega, by dsimp only; omega, le_refl 1, by dsimp only; omega⟩

lemma prevDate_nextDate {d : Date} (h : ValidDate d) : prevDate (nextDate d) = d := by
  obtain ⟨y, m, day⟩ := d
  obtain ⟨h1, h2, h3, h4⟩ := h
  dsimp only at h1 h2 h3 h4
  unfold nextDate
  dsimp only
  split_ifs with hA hB
  · unfold prevDate
    dsimp only
    split_ifs with hC hD
    · simp
    · exact absurd (show 1 < day + 1 by omega) hC
    · exact absurd (show 1 < day + 1 by omega) hC
  · unfold prevDate
    dsimp only
    split_ifs with hC hD
    · exact absurd hC (by omega)
    · show (⟨y, m, daysInMonth y m⟩ : Date) = ⟨y, m, day⟩
      have hd : daysInMonth y m = day := by omega
      rw [hd]
    · exact absurd (show 1 < m + 1 by omega) hD
  · have hm : m = 12 := by omega
    subst hm
    have hday : day = 31 := by
      have h12 : daysInMonth y 12 = 31 := rfl
      omega
    subst hday
    unfold prevDate
    dsimp only
    rw [if_neg (by omega : ¬ (1 : ℕ) < 1), if_neg (by omega : ¬ (1 : ℕ) < 1)]
    simp

lemma monthAbbrev_ne {a b : ℕ} (ha1 : 1 ≤ a) (ha2 : a ≤ 12) (hb1 : 1 ≤ b)
    (hb2 : b ≤ 12) (hab : a ≠ b) : monthAbbrev a ≠ monthAbbrev b := by
  interval_cases a <;> interval_cases b <;> first | omega | decide

/-! ## Lemmas on the main loop -/

lemma hourQ_1410 {t : Time} (h : t.minuteOfDay = 1410) : hourQ t = 47/2 := by
  rw [hourQ_eq, h]
  norm_num

lemma step_no_roll (s : SimState) (hlt : s.sim_time.minuteOfDay + 30 < 1440) :
    step s =
      { sim_time := ⟨s.sim_time.date, s.sim_time.minuteOfDay + 30⟩
        energy_today := s.energy_today + (tickPower s : ℚ) * ((MINUTES_PER_TICK : ℚ) / 60)
        live_power := s.live_power ++
          [((get_live_telemetry s.sim_time s.rng).1.str_time, tickPower s)]
        history_db := s.history_db
        rng := (get_live_telemetry s.sim_time s.rng).2 } := by
  have ht : addMinutes s.sim_time MINUTES_PER_TICK
      = ⟨s.sim_time.date, s.sim_time.minuteOfDay + 30⟩ := by
    have h30 := addMinutes_lt s.sim_time 30 hlt
    simpa [MINUTES_PER_TICK] using h30
  have hcond : ¬(hourN (⟨s.sim_time.date, s.sim_time.minuteOfDay + 30⟩ : Time) = 0
      ∧ minuteN ⟨s.sim_time.date, s.sim_time.minuteOfDay + 30⟩ = 0) := by
    simp only [hourN, minuteN]
    omega
  simp only [step, tickPower]
  rw [ht, if_neg hcond]

lemma step_roll (s : SimState) (hm : s.sim_time.minuteOfDay = 1410) :
    step s =
      { sim_time := ⟨nextDate s.sim_time.date, 0⟩
        energy_today := 0
        live_power := []
        history_db := s.history_db ++
          [{ date := prevDate (nextDate s.sim_time.date)
             year := (nextDate s.sim_time.date).year
             month := monthAbbrev (nextDate s.sim_time.date).month
             condition := (get_live_telemetry s.sim_time s.rng).1.condition
             peak_Temp_C := pyInt (get_live_telemetry s.sim_time s.rng).1.ambient
             yield_Wh := pyIntQ (s.energy_today
               + (tickPower s : ℚ) * ((MINUTES_PER_TICK : ℚ) / 60)) }]
        rng := (get_live_telemetry s.sim_time s.rng).2 } := by
  have ht : addMinutes s.sim_time MINUTES_PER_TICK = ⟨nextDate s.sim_time.date, 0⟩ := by
    have hr := addMinutes_roll s.sim_time hm
    simpa [MINUTES_PER_TICK] using hr
  have hcond : hourN (⟨nextDate s.sim_time.date, 0⟩ : Time) = 0
      ∧ minuteN ⟨nextDate s.sim_time.date, 0⟩ = 0 := by
    simp [hourN, minuteN]
  simp only [step, tickPower]
  rw [ht, if_pos hcond]

/-! ## Claim C9 -/

/-- C9: for every daylight hour `h`, the computed sun angle equals the spec's
    formula `progress * 180 - 90` with `progress = (h - sunrise)/(sunset - sunrise)`
    for the code's fixed window sunrise = 6, sunset = 18: a linear sweep from
    -90 degrees at sunrise to +90 degrees at sunset. -/
theorem C9_sun_angle_linear_sweep (h : ℝ) (p : ℤ) (w : ℚ)
    (h6 : 6 ≤ h) (h18 : h ≤ 18) :
    (dayCompute h p w).sun_angle = specSunAngle h := by
  simp only [dayCompute, specSunAngle]
  ring

/-- Witness for C9 at solar noon. -/
theorem C9_sun_angle_linear_sweep_witness :
    (6 : ℝ) ≤ 12 ∧ (12 : ℝ) ≤ 18
      ∧ (dayCompute 12 38 (9/10)).sun_angle = specSunAngle 12 :=
  ⟨by norm_num, by norm_num,
   C9_sun_angle_linear_sweep 12 38 (9/10) (by norm_num) (by norm_num)⟩

/-! ## Claim C2 -/

lemma clip_eq_min_iff (x : ℝ) :
    min 60 (max (-60) (-60 + (x - 35) / 40 * (60 * 2))) = -60 ↔ x ≤ 35 := by
  constructor
  · intro hmin
    by_contra hx
    push_neg at hx
    have h1 : (-60 : ℝ) < -60 + (x - 35) / 40 * (60 * 2) := by nlinarith
    rcases le_total (-60 + (x - 35) / 40 * (60 * 2)) 60 with hle | hgt
    · rw [max_eq_right (le_of_lt h1), min_eq_right hle] at hmin
      linarith
    · rw [max_eq_right (le_of_lt h1), min_eq_left hgt] at hmin
      linarith
  · intro hx
    have h1 : -60 + (x - 35) / 40 * (60 * 2) ≤ -60 := by nlinarith
    rw [max_eq_left h1, min_eq_right (by norm_num : (-60 : ℝ) ≤ 60)]

/-- C2 amended: the panel is parked at the minimum angle exactly when the
    computed wax temperature is at most 35 degrees - an absolute wax
    threshold, not the spec's wax-minus-ambient deadband differential. -/
theorem C2_parked_iff_wax_abs_threshold (h : ℝ) (p : ℤ) (w : ℚ) :
    (dayCompute h p w).panel_angle = -MAX_ROTATION ↔ (dayCompute h p w).wax ≤ 35 := by
  simp only [dayCompute, MAX_ROTATION, npClip]
  exact clip_eq_min_iff _

/-- C2 counterexample: at 12:00 on 2025-11-05 with random stream
    [9/10, 0, 9/20] (a rain day, peak 29, attenuation 0.235) the
    wax-ambient differential is 9.4 < DEADBAND yet the panel angle is
    -58.98, not the parked minimum -60. -/
theorem C2_subdeadband_panel_moves :
    6 ≤ hourQ ⟨⟨2025, 11, 5⟩, 720⟩ ∧ hourQ ⟨⟨2025, 11, 5⟩, 720⟩ ≤ 18
    ∧ Option.map (fun dv => dv.wax - dv.ambient)
        (get_live_telemetry ⟨⟨2025, 11, 5⟩, 720⟩ [9/10, 0, 9/20]).1.internals
      = some (47/5)
    ∧ (47/5 : ℝ) < DEADBAND
    ∧ Option.map DayVals.panel_angle
        (get_live_telemetry ⟨⟨2025, 11, 5⟩, 720⟩ [9/10, 0, 9/20]).1.internals
      = some (-(2949/50))
    ∧ (-(2949/50) : ℝ) ≠ -MAX_ROTATION := by
  have hq : hourQ ⟨⟨2025, 11, 5⟩, 720⟩ = 12 := by
    rw [hourQ_eq]
    norm_num
  have h6 : 6 ≤ hourQ ⟨⟨2025, 11, 5⟩, 720⟩ := by rw [hq]; norm_num
  have h18 : hourQ ⟨⟨2025, 11, 5⟩, 720⟩ ≤ 18 := by rw [hq]; norm_num
  have hprof : get_climate_profile (⟨⟨2025, 11, 5⟩, 720⟩ : Time).date [9/10, 0, 9/20]
      = ((29, (47/200, "Rain/Overcast")), []) := by
    simp only [get_climate_profile, draw]
    norm_num [randint, uniform]
  have htel := get_live_telemetry_day ⟨⟨2025, 11, 5⟩, 720⟩ [9/10, 0, 9/20] h6 h18
  rw [hprof, hq] at htel
  have hsin : Real.sin ((((12 : ℚ) : ℝ) - 6) / 12 * Real.pi) = 1 := by
    have harg : (((12 : ℚ) : ℝ) - 6) / 12 * Real.pi = Real.pi / 2 := by
      push_cast
      ring
    rw [harg, Real.sin_pi_div_two]
  refine ⟨h6, h18, ?_, by norm_num [DEADBAND], ?_, by norm_num [MAX_ROTATION]⟩
  · rw [htel]
    simp only [Option.map_some]
    simp only [dayCompute, hsin]
    push_cast
    norm_num
  · rw [htel]
    simp only [Option.map_some]
    simp only [dayCompute, hsin, npClip, MAX_ROTATION]
    push_cast
    norm_num

/-! ## Claim C5 -/

/-- C5 counterexample: on any March date the generator yields the label
    "Partly Cloudy", which lies outside the spec's closed condition set
    {Sunny, Cloudy, Rainy, Heatwave, Overcast, Clear}. -/
theorem C5_label_outside_spec_set :
    (get_climate_profile ⟨2025, 3, 15⟩ []).1.2.2 = "Partly Cloudy"
    ∧ "Partly Cloudy" ∉ specConditionLabels := by
  constructor
  · simp only [get_climate_profile, draw]
    norm_num
  · decide

/-- C5 amended: for every input date the attenuation factor lies in [0,1],
    and the condition label is drawn from the closed set
    {Sunny, Clear, Cloudy, Rain/Overcast, Partly Cloudy} that the code
    actually uses (not the spec's set). -/
theorem C5_attenuation_and_labels (d : Date) (s : List ℚ)
    (hs : ∀ u ∈ s, 0 ≤ u ∧ u < 1) :
    (0 ≤ (get_climate_profile d s).1.2.1 ∧ (get_climate_profile d s).1.2.1 ≤ 1)
    ∧ (get_climate_profile d s).1.2.2 ∈ codeConditionLabels := by
  have hb := get_climate_profile_bounds d s hs
  exact ⟨hb.2.1, hb.2.2⟩

/-- Witness for C5 on a July date with a concrete admissible stream. -/
theorem C5_attenuation_and_labels_witness :
    (∀ u ∈ ([1/2, 1/2, 1/2] : List ℚ), 0 ≤ u ∧ u < 1)
    ∧ ((0 ≤ (get_climate_profile ⟨2025, 7, 4⟩ [1/2, 1/2, 1/2]).1.2.1
        ∧ (get_climate_profile ⟨2025, 7, 4⟩ [1/2, 1/2, 1/2]).1.2.1 ≤ 1)
      ∧ (get_climate_profile ⟨2025, 7, 4⟩ [1/2, 1/2, 1/2]).1.2.2 ∈ codeConditionLabels) :=
  ⟨by norm_num, C5_attenuation_and_labels ⟨2025, 7, 4⟩ [1/2, 1/2, 1/2] (by norm_num)⟩

/-! ## Claim C6 -/

/-- C6 amended: outside the daylight window the reading has power 0, ambient
    and wax equal to the constant night temperature 22.0 and is_day false;
    the night branch computes no panel angle (internals is none), so the
    reading carries no parked-angle value. -/
theorem C6_night_values (t : Time) (s : List ℚ)
    (hn : ¬(6 ≤ hourQ t ∧ hourQ t ≤ 18)) :
    (get_live_telemetry t s).1.power = 0
    ∧ (get_live_telemetry t s).1.ambient = 22
    ∧ (get_live_telemetry t s).1.wax = 22
    ∧ (get_live_telemetry t s).1.is_day = false
    ∧ (get_live_telemetry t s).1.internals = none := by
  rw [get_live_telemetry_night t s hn]
  exact ⟨rfl, pyRound1_22, pyRound1_22, rfl, rfl⟩

/-- Witness for C6 at midnight. -/
theorem C6_night_values_witness :
    ¬(6 ≤ hourQ ⟨⟨2025, 7, 1⟩, 0⟩ ∧ hourQ ⟨⟨2025, 7, 1⟩, 0⟩ ≤ 18)
    ∧ ((get_live_telemetry ⟨⟨2025, 7, 1⟩, 0⟩ []).1.power = 0
      ∧ (get_live_telemetry ⟨⟨2025, 7, 1⟩, 0⟩ []).1.ambient = 22
      ∧ (get_live_telemetry ⟨⟨2025, 7, 1⟩, 0⟩ []).1.wax = 22
      ∧ (get_live_telemetry ⟨⟨2025, 7, 1⟩, 0⟩ []).1.is_day = false
      ∧ (get_live_telemetry ⟨⟨2025, 7, 1⟩, 0⟩ []).1.internals = none) := by
  have hn : ¬(6 ≤ hourQ ⟨⟨2025, 7, 1⟩, 0⟩ ∧ hourQ ⟨⟨2025, 7, 1⟩, 0⟩ ≤ 18) := by
    rw [hourQ_eq]
    norm_num
  exact ⟨hn, C6_night_values _ _ hn⟩

/-- C6 counterexample: at 23:30 the night branch computes no panel angle at
    all, so the reading does not carry the parked value -MAX_ROTATION that
    the claim asserts. -/
theorem C6_no_panel_angle_at_night :
    Option.map DayVals.panel_angle
        (get_live_telemetry ⟨⟨2025, 7, 1⟩, 1410⟩ []).1.internals
      ≠ some (-MAX_ROTATION) := by
  have hn : ¬(6 ≤ hourQ ⟨⟨2025, 7, 1⟩, 1410⟩ ∧ hourQ ⟨⟨2025, 7, 1⟩, 1410⟩ ≤ 18) := by
    rw [hourQ_1410 rfl]
    norm_num
  rw [get_live_telemetry_night _ _ hn]
  simp

/-! ## Claim C1 -/

/-- C1 counterexample: two telemetry computations at 10:00 and 10:30 of the
    same simulated day observe different profile values (peak temperature 38
    vs 44), because the profile is redrawn from the random stream on every
    call rather than created once per day. -/
theorem C1_same_day_profiles_differ :
    (get_live_telemetry ⟨⟨2025, 5, 10⟩, 600⟩ [0, 0, 6/7, 0]).1.peak_temp_today = 38
    ∧ (get_live_telemetry ⟨⟨2025, 5, 10⟩, 630⟩
        ((get_live_telemetry ⟨⟨2025, 5, 10⟩, 600⟩ [0, 0, 6/7, 0]).2)).1.peak_temp_today = 44
    ∧ (38 : ℤ) ≠ 44 := by
  have h1 : get_climate_profile (⟨⟨2025, 5, 10⟩, 600⟩ : Time).date [0, 0, 6/7, 0]
      = ((38, (9/10, "Clear")), [6/7, 0]) := by
    simp only [get_climate_profile, draw]
    norm_num [randint, uniform]
  have h2 : get_climate_profile (⟨⟨2025, 5, 10⟩, 630⟩ : Time).date [6/7, 0]
      = ((44, (9/10, "Clear")), []) := by
    simp only [get_climate_profile, draw]
    norm_num [randint, uniform]
  refine ⟨?_, ?_, by norm_num⟩
  · rw [get_live_telemetry_peak, h1]
  · rw [get_live_telemetry_peak, get_live_telemetry_rng, h1]
    dsimp only
    rw [h2]

/-- C1 amended: the profile is regenerated by fresh random draws at every
    telemetry computation; the observed profile values are a function only
    of the timestamp's month and of the random-stream state consumed by that
    call, so two computations in the same day agree exactly when they
    consume identical draws. -/
theorem C1_profile_month_rng_only (t1 t2 : Time) (s : List ℚ)
    (hm : t1.date.month = t2.date.month) :
    (get_live_telemetry t1 s).1.peak_temp_today
        = (get_live_telemetry t2 s).1.peak_temp_today
    ∧ (get_live_telemetry t1 s).1.weather_factor_today
        = (get_live_telemetry t2 s).1.weather_factor_today
    ∧ (get_live_telemetry t1 s).1.condition
        = (get_live_telemetry t2 s).1.condition := by
  have hp := get_climate_profile_month t1.date t2.date s hm
  refine ⟨?_, ?_, ?_⟩
  · rw [get_live_telemetry_peak, get_live_telemetry_peak, hp]
  · rw [get_live_telemetry_wf, get_live_telemetry_wf, hp]
  · rw [get_live_telemetry_cond, get_live_telemetry_cond, hp]

/-- Witness for C1: two timestamps in the same month with the same stream. -/
theorem C1_profile_month_rng_only_witness :
    (⟨⟨2025, 5, 10⟩, 600⟩ : Time).date.month = (⟨⟨2025, 5, 23⟩, 900⟩ : Time).date.month
    ∧ ((get_live_telemetry ⟨⟨2025, 5, 10⟩, 600⟩ [1/2]).1.peak_temp_today
        = (get_live_telemetry ⟨⟨2025, 5, 23⟩, 900⟩ [1/2]).1.peak_temp_today
      ∧ (get_live_telemetry ⟨⟨2025, 5, 10⟩, 600⟩ [1/2]).1.weather_factor_today
        = (get_live_telemetry ⟨⟨2025, 5, 23⟩, 900⟩ [1/2]).1.weather_factor_today
      ∧ (get_live_telemetry ⟨⟨2025, 5, 10⟩, 600⟩ [1/2]).1.condition
        = (get_live_telemetry ⟨⟨2025, 5, 23⟩, 900⟩ [1/2]).1.condition) :=
  ⟨rfl, C1_profile_month_rng_only _ _ [1/2] rfl⟩

/-! ## Claim C8 -/

/-- C8: the tick size is the hard-coded constant 30 minutes, which divides
    24 hours; the code performs no validation at all, and for a non-dividing
    tick such as 48 minutes the midnight rollover test (hour == 0 and
    minute == 0, equivalently minuteOfDay == 0) never holds on any tick from
    the app's 06:00 start, so rather than failing fast the loop would run
    and silently never roll days over. -/
theorem C8_no_tick_validation_consequence :
    MINUTES_PER_TICK ∣ 1440
    ∧ (∀ t : Time, (hourN t = 0 ∧ minuteN t = 0) ↔ t.minuteOfDay = 0)
    ∧ (∀ (d : Date) (k : ℕ), 0 < (addMinutes ⟨d, 360⟩ (48 * (k + 1))).minuteOfDay) := by
  refine ⟨⟨48, rfl⟩, ?_, ?_⟩
  · intro t
    unfold hourN minuteN
    omega
  · intro d k
    unfold addMinutes
    dsimp only
    omega

/-! ## Claim C7 -/

/-- C7 amended: for every daylight reading, power is 0 whenever the angular
    error is at least 90 degrees; at angular error 0 the power equals the
    int() truncation of irradiance * capacity/1000 (within 1 W below the
    exact product, but not equal to it in general); and power is never
    negative. -/
theorem C7_power_efficiency_properties (h : ℝ) (p : ℤ) (w : ℚ)
    (h6 : 6 ≤ h) (h18 : h ≤ 18) :
    (90 ≤ (dayCompute h p w).error → (dayCompute h p w).power = 0)
    ∧ ((dayCompute h p w).error = 0 →
        (dayCompute h p w).power
            = pyInt (((dayCompute h p w).irradiance : ℝ) * (PANEL_CAPACITY / 1000))
        ∧ ((dayCompute h p w).irradiance : ℝ) * (PANEL_CAPACITY / 1000) - 1
            < ((dayCompute h p w).power : ℝ)
        ∧ ((dayCompute h p w).power : ℝ)
            ≤ ((dayCompute h p w).irradiance : ℝ) * (PANEL_CAPACITY / 1000))
    ∧ 0 ≤ (dayCompute h p w).power := by
  simp only [dayCompute]
  set sun : ℝ := (h - 12) * 15 with hsun
  set bi : ℝ := Real.sin ((h - 6) / 12 * Real.pi) with hbi
  set ri : ℝ := bi * (w : ℝ) with hri
  set irr : ℤ := pyInt (max 0 (ri * 1000)) with hirr
  set amb : ℝ := 25 + ri * ((p : ℝ) - 25) with hamb
  set wax : ℝ := amb + ri * 40 with hwax
  set tgt : ℝ := -MAX_ROTATION + ((wax - 35) / 40 * (MAX_ROTATION * 2)) with htgt
  set pan : ℝ := npClip tgt (-MAX_ROTATION) MAX_ROTATION with hpan
  set er : ℝ := |sun - pan| with her
  have hirr0 : 0 ≤ irr := by
    rw [hirr]
    exact pyInt_nonneg (le_max_left _ _)
  have hirr0R : (0 : ℝ) ≤ (irr : ℝ) := by exact_mod_cast hirr0
  have hcap : (0 : ℝ) < PANEL_CAPACITY / 1000 := by norm_num [PANEL_CAPACITY]
  have hpan_lo : -60 ≤ pan := by
    rw [hpan]
    simp only [npClip, MAX_ROTATION]
    exact le_min (by norm_num) (le_max_left _ _)
  have hpan_hi : pan ≤ 60 := by
    rw [hpan]
    simp only [npClip, MAX_ROTATION]
    exact min_le_left _ _
  have hsun_lo : -90 ≤ sun := by rw [hsun]; linarith
  have hsun_hi : sun ≤ 90 := by rw [hsun]; linarith
  have her_hi : er ≤ 150 := by
    rw [her]
    exact abs_le.mpr ⟨by linarith, by linarith⟩
  refine ⟨?_, ?_, ?_⟩
  · intro he
    have hrlo : Real.pi / 2 ≤ radians er := by
      simp only [radians]
      have hp2 : Real.pi / 2 = 90 * (Real.pi / 180) := by ring
      rw [hp2]
      exact mul_le_mul_of_nonneg_right he (by positivity)
    have hrhi : radians er ≤ Real.pi + Real.pi / 2 := by
      simp only [radians]
      nlinarith [Real.pi_pos]
    have hc := Real.cos_nonpos_of_pi_div_two_le_of_le hrlo hrhi
    have hm : max 0 (Real.cos (radians er)) = 0 := max_eq_left hc
    rw [hm, mul_zero, pyInt_of_nonneg le_rfl, Int.floor_zero]
  · intro he
    have h0 : radians (0 : ℝ) = 0 := by simp [radians]
    rw [he, h0, Real.cos_zero]
    have hm1 : max (0 : ℝ) 1 = 1 := by norm_num
    rw [hm1, mul_one]
    have hprod : (0 : ℝ) ≤ (irr : ℝ) * (PANEL_CAPACITY / 1000) :=
      mul_nonneg hirr0R (le_of_lt hcap)
    refine ⟨rfl, ?_, ?_⟩
    · rw [pyInt_of_nonneg hprod]
      exact_mod_cast Int.sub_one_lt_floor _
    · rw [pyInt_of_nonneg hprod]
      exact_mod_cast Int.floor_le _
  · exact pyInt_nonneg (mul_nonneg (mul_nonneg hirr0R (le_of_lt hcap)) (le_max_left _ _))

/-- Witness for C7 at solar noon of a summer day. -/
theorem C7_power_efficiency_properties_witness :
    (6 : ℝ) ≤ 12 ∧ (12 : ℝ) ≤ 18
    ∧ ((90 ≤ (dayCompute 12 38 (9/10)).error → (dayCompute 12 38 (9/10)).power = 0)
      ∧ ((dayCompute 12 38 (9/10)).error = 0 →
          (dayCompute 12 38 (9/10)).power
              = pyInt (((dayCompute 12 38 (9/10)).irradiance : ℝ) * (PANEL_CAPACITY / 1000))
          ∧ ((dayCompute 12 38 (9/10)).irradiance : ℝ) * (PANEL_CAPACITY / 1000) - 1
              < ((dayCompute 12 38 (9/10)).power : ℝ)
          ∧ ((dayCompute 12 38 (9/10)).power : ℝ)
              ≤ ((dayCompute 12 38 (9/10)).irradiance : ℝ) * (PANEL_CAPACITY / 1000))
      ∧ 0 ≤ (dayCompute 12 38 (9/10)).power) :=
  ⟨by norm_num, by norm_num,
   C7_power_efficiency_properties 12 38 (9/10) (by norm_num) (by norm_num)⟩

/-- C7 counterexample: at 08:00 on 2025-10-20 with stream [0, 0, 1/2] the
    angular error is exactly 0 and the irradiance is 125 W/m2, yet the power
    is int(125 * 0.25) = 31 W, not the exact product 31.25 W the claim
    asserts. -/
theorem C7_error_zero_power_truncated :
    Option.map DayVals.error
        (get_live_telemetry ⟨⟨2025, 10, 20⟩, 480⟩ [0, 0, 1/2]).1.internals = some 0
    ∧ Option.map DayVals.irradiance
        (get_live_telemetry ⟨⟨2025, 10, 20⟩, 480⟩ [0, 0, 1/2]).1.internals = some 125
    ∧ Option.map DayVals.power
        (get_live_telemetry ⟨⟨2025, 10, 20⟩, 480⟩ [0, 0, 1/2]).1.internals = some 31
    ∧ (31 : ℝ) ≠ (125 : ℝ) * (PANEL_CAPACITY / 1000) := by
  have hq : hourQ ⟨⟨2025, 10, 20⟩, 480⟩ = 8 := by
    rw [hourQ_eq]
    norm_num
  have h6 : 6 ≤ hourQ ⟨⟨2025, 10, 20⟩, 480⟩ := by rw [hq]; norm_num
  have h18 : hourQ ⟨⟨2025, 10, 20⟩, 480⟩ ≤ 18 := by rw [hq]; norm_num
  have hprof : get_climate_profile (⟨⟨2025, 10, 20⟩, 480⟩ : Time).date [0, 0, 1/2]
      = ((25, (1/4, "Rain/Overcast")), []) := by
    simp only [get_climate_profile, draw]
    norm_num [randint, uniform]
  have htel := get_live_telemetry_day ⟨⟨2025, 10, 20⟩, 480⟩ [0, 0, 1/2] h6 h18
  rw [hprof, hq] at htel
  have hsin : Real.sin ((((8 : ℚ) : ℝ) - 6) / 12 * Real.pi) = 1/2 := by
    have harg : (((8 : ℚ) : ℝ) - 6) / 12 * Real.pi = Real.pi / 6 := by
      push_cast
      ring
    rw [harg, Real.sin_pi_div_six]
  refine ⟨?_, ?_, ?_, by norm_num [PANEL_CAPACITY]⟩
  · rw [htel]
    simp only [Option.map_some]
    simp only [dayCompute, hsin, npClip, MAX_ROTATION]
    push_cast
    norm_num
  · rw [htel]
    simp only [Option.map_some]
    simp only [dayCompute, hsin, pyInt]
    push_cast
    norm_num
  · rw [htel]
    simp only [Option.map_some]
    simp only [dayCompute, hsin, npClip, MAX_ROTATION, radians, PANEL_CAPACITY, pyInt]
    push_cast
    norm_num [Real.cos_zero]

/-! ## Claim C4 -/

/-- C4: at every live rollover the archived record's Peak_Temp_C is the
    int() of the final tick's ambient temperature; that final tick runs at
    23:30, which is night, so the stored value is always 22 - strictly below
    the profile's nominal peak (at least 24 for every month) and never the
    maximum ambient observed during the day. -/
theorem C4_rollover_peak_always_22 (s : SimState)
    (hm : s.sim_time.minuteOfDay = 1410)
    (hs : ∀ u ∈ s.rng, 0 ≤ u ∧ u < 1) :
    (step s).history_db = s.history_db ++
      [{ date := prevDate (nextDate s.sim_time.date)
         year := (nextDate s.sim_time.date).year
         month := monthAbbrev (nextDate s.sim_time.date).month
         condition := (get_live_telemetry s.sim_time s.rng).1.condition
         peak_Temp_C := 22
         yield_Wh := pyIntQ (s.energy_today
           + (tickPower s : ℚ) * ((MINUTES_PER_TICK : ℚ) / 60)) }]
    ∧ 24 ≤ (get_climate_profile s.sim_time.date s.rng).1.1
    ∧ (22 : ℤ) < (get_climate_profile s.sim_time.date s.rng).1.1 := by
  have hroll := step_roll s hm
  have hn : ¬(6 ≤ hourQ s.sim_time ∧ hourQ s.sim_time ≤ 18) := by
    rw [hourQ_1410 hm]
    norm_num
  have hnight := get_live_telemetry_night s.sim_time s.rng hn
  have hamb : (get_live_telemetry s.sim_time s.rng).1.ambient = 22 := by
    rw [hnight]
    exact pyRound1_22
  have hpeak : pyInt (get_live_telemetry s.sim_time s.rng).1.ambient = 22 := by
    rw [hamb]
    have h22 := pyInt_intCast 22
    norm_num at h22
    exact h22
  have hb := get_climate_profile_bounds s.sim_time.date s.rng hs
  have hb24 := hb.1.1
  refine ⟨?_, hb24, by omega⟩
  rw [hroll, hpeak]

/-- Witness for C4 at a concrete pre-midnight state. -/
theorem C4_rollover_peak_always_22_witness :
    (⟨⟨⟨2025, 6, 15⟩, 1410⟩, 0, [], [], []⟩ : SimState).sim_time.minuteOfDay = 1410
    ∧ (∀ u ∈ (⟨⟨⟨2025, 6, 15⟩, 1410⟩, 0, [], [], []⟩ : SimState).rng, 0 ≤ u ∧ u < 1)
    ∧ ((step (⟨⟨⟨2025, 6, 15⟩, 1410⟩, 0, [], [], []⟩ : SimState)).history_db
        = (⟨⟨⟨2025, 6, 15⟩, 1410⟩, 0, [], [], []⟩ : SimState).history_db ++
        [{ date := prevDate (nextDate (⟨⟨⟨2025, 6, 15⟩, 1410⟩, 0, [], [], []⟩ : SimState).sim_time.date)
           year := (nextDate (⟨⟨⟨2025, 6, 15⟩, 1410⟩, 0, [], [], []⟩ : SimState).sim_time.date).year
           month := monthAbbrev (nextDate (⟨⟨⟨2025, 6, 15⟩, 1410⟩, 0, [], [], []⟩ : SimState).sim_time.date).month
           condition := (get_live_telemetry (⟨⟨⟨2025, 6, 15⟩, 1410⟩, 0, [], [], []⟩ : SimState).sim_time
             (⟨⟨⟨2025, 6, 15⟩, 1410⟩, 0, [], [], []⟩ : SimState).rng).1.condition
           peak_Temp_C := 22
           yield_Wh := pyIntQ ((⟨⟨⟨2025, 6, 15⟩, 1410⟩, 0, [], [], []⟩ : SimState).energy_today
             + (tickPower (⟨⟨⟨2025, 6, 15⟩, 1410⟩, 0, [], [], []⟩ : SimState) : ℚ)
                 * ((MINUTES_PER_TICK : ℚ) / 60)) }]
      ∧ 24 ≤ (get_climate_profile (⟨⟨⟨2025, 6, 15⟩, 1410⟩, 0, [], [], []⟩ : SimState).sim_time.date
          (⟨⟨⟨2025, 6, 15⟩, 1410⟩, 0, [], [], []⟩ : SimState).rng).1.1
      ∧ (22 : ℤ) < (get_climate_profile (⟨⟨⟨2025, 6, 15⟩, 1410⟩, 0, [], [], []⟩ : SimState).sim_time.date
          (⟨⟨⟨2025, 6, 15⟩, 1410⟩, 0, [], [], []⟩ : SimState).rng).1.1) :=
  ⟨rfl, by simp, C4_rollover_peak_always_22 _ rfl (by simp)⟩

/-! ## Claim C10 -/

/-- C10: every rollover record derives its Year and Month fields from the
    rollover timestamp (the first instant of the new day) while its Date
    field names the previous day; consequently at a month-crossing rollover
    the record's Month differs from the month abbreviation of its own Date,
    and at a year-crossing rollover its Year differs from its Date's year. -/
theorem C10_record_month_year_from_new_day (s : SimState)
    (hm : s.sim_time.minuteOfDay = 1410)
    (hv : ValidDate s.sim_time.date) :
    ∃ rec : DailyRecord,
      (step s).history_db = s.history_db ++ [rec]
      ∧ rec.year = (nextDate s.sim_time.date).year
      ∧ rec.month = monthAbbrev (nextDate s.sim_time.date).month
      ∧ rec.date = s.sim_time.date
      ∧ ((nextDate s.sim_time.date).month ≠ s.sim_time.date.month →
          rec.month ≠ monthAbbrev rec.date.month)
      ∧ ((nextDate s.sim_time.date).year ≠ s.sim_time.date.year →
          rec.year ≠ rec.date.year) := by
  have hroll := step_roll s hm
  have hv' := ValidDate_nextDate hv
  refine ⟨{ date := prevDate (nextDate s.sim_time.date)
            year := (nextDate s.sim_time.date).year
            month := monthAbbrev (nextDate s.sim_time.date).month
            condition := (get_live_telemetry s.sim_time s.rng).1.condition
            peak_Temp_C := pyInt (get_live_telemetry s.sim_time s.rng).1.ambient
            yield_Wh := pyIntQ (s.energy_today
              + (tickPower s : ℚ) * ((MINUTES_PER_TICK : ℚ) / 60)) },
    ?_, ?_, ?_, ?_, ?_, ?_⟩
  · rw [hroll]
  · rfl
  · rfl
  · exact prevDate_nextDate hv
  · intro hne
    show monthAbbrev (nextDate s.sim_time.date).month
        ≠ monthAbbrev (prevDate (nextDate s.sim_time.date)).month
    rw [prevDate_nextDate hv]
    exact monthAbbrev_ne hv'.1 hv'.2.1 hv.1 hv.2.1 hne
  · intro hne
    show (nextDate s.sim_time.date).year ≠ (prevDate (nextDate s.sim_time.date)).year
    rw [prevDate_nextDate hv]
    exact hne

/-- Witness for C10 at the January-to-February 2025 rollover. -/
theorem C10_record_month_year_from_new_day_witness :
    (⟨⟨⟨2025, 1, 31⟩, 1410⟩, 0, [], [], []⟩ : SimState).sim_time.minuteOfDay = 1410
    ∧ ValidDate (⟨⟨⟨2025, 1, 31⟩, 1410⟩, 0, [], [], []⟩ : SimState).sim_time.date
    ∧ (∃ rec : DailyRecord,
        (step (⟨⟨⟨2025, 1, 31⟩, 1410⟩, 0, [], [], []⟩ : SimState)).history_db
          = (⟨⟨⟨2025, 1, 31⟩, 1410⟩, 0, [], [], []⟩ : SimState).history_db ++ [rec]
        ∧ rec.year = (nextDate (⟨⟨⟨2025, 1, 31⟩, 1410⟩, 0, [], [], []⟩ : SimState).sim_time.date).year
        ∧ rec.month = monthAbbrev (nextDate (⟨⟨⟨2025, 1, 31⟩, 1410⟩, 0, [], [], []⟩ : SimState).sim_time.date).month
        ∧ rec.date = (⟨⟨⟨2025, 1, 31⟩, 1410⟩, 0, [], [], []⟩ : SimState).sim_time.date
        ∧ ((nextDate (⟨⟨⟨2025, 1, 31⟩, 1410⟩, 0, [], [], []⟩ : SimState).sim_time.date).month
              ≠ (⟨⟨⟨2025, 1, 31⟩, 1410⟩, 0, [], [], []⟩ : SimState).sim_time.date.month →
            rec.month ≠ monthAbbrev rec.date.month)
        ∧ ((nextDate (⟨⟨⟨2025, 1, 31⟩, 1410⟩, 0, [], [], []⟩ : SimState).sim_time.date).year
              ≠ (⟨⟨⟨2025, 1, 31⟩, 1410⟩, 0, [], [], []⟩ : SimState).sim_time.date.year →
            rec.year ≠ rec.date.year)) :=
  ⟨rfl, by decide, C10_record_month_year_from_new_day _ rfl (by decide)⟩

/-! ## Claim C3 -/

lemma iterate_within_day (s0 : SimState) (h0 : s0.sim_time.minuteOfDay = 0)
    (he : s0.energy_today = 0) :
    ∀ k, k ≤ 47 →
      (step^[k] s0).sim_time.minuteOfDay = 30 * k
      ∧ (step^[k] s0).sim_time.date = s0.sim_time.date
      ∧ (step^[k] s0).history_db = s0.history_db
      ∧ (step^[k] s0).energy_today
          = ∑ i ∈ Finset.range k,
              (tickPower (step^[i] s0) : ℚ) * ((MINUTES_PER_TICK : ℚ) / 60) := by
  intro k
  induction k with
  | zero =>
    intro _
    refine ⟨?_, rfl, rfl, ?_⟩
    · simpa using h0
    · simpa using he
  | succ n ih =>
    intro hk
    obtain ⟨hmod, hdate, hhist, hen⟩ := ih (by omega)
    have hlt : (step^[n] s0).sim_time.minuteOfDay + 30 < 1440 := by omega
    have hstep := step_no_roll (step^[n] s0) hlt
    rw [Function.iterate_succ_apply', hstep]
    refine ⟨?_, ?_, ?_, ?_⟩
    · dsimp only
      omega
    · dsimp only
      exact hdate
    · dsimp only
      exact hhist
    · dsimp only
      rw [hen, Finset.sum_range_succ]

/-- C3: starting a simulated day at midnight with the accumulator at 0, the
    48 ticks of the day append exactly one record at the rollover; its
    yield_Wh is the int() truncation of the sum over the day's ticks of
    power * tick_minutes/60 (so it lies within 1 Wh below that sum), the
    accumulator is reset to 0 exactly at the rollover after the record is
    archived, and at no earlier tick is anything archived or reset. -/
theorem C3_day_integration_and_reset (s0 : SimState)
    (h0 : s0.sim_time.minuteOfDay = 0) (he : s0.energy_today = 0) :
    ∃ rec : DailyRecord,
      (step^[48] s0).history_db = s0.history_db ++ [rec]
      ∧ rec.yield_Wh = pyIntQ (∑ i ∈ Finset.range 48,
          (tickPower (step^[i] s0) : ℚ) * ((MINUTES_PER_TICK : ℚ) / 60))
      ∧ (rec.yield_Wh : ℚ) ≤ ∑ i ∈ Finset.range 48,
          (tickPower (step^[i] s0) : ℚ) * ((MINUTES_PER_TICK : ℚ) / 60)
      ∧ (∑ i ∈ Finset.range 48,
          (tickPower (step^[i] s0) : ℚ) * ((MINUTES_PER_TICK : ℚ) / 60)) - 1
          < (rec.yield_Wh : ℚ)
      ∧ (step^[48] s0).energy_today = 0
      ∧ ∀ k, k ≤ 47 → (step^[k] s0).history_db = s0.history_db
          ∧ (step^[k] s0).energy_today = ∑ i ∈ Finset.range k,
              (tickPower (step^[i] s0) : ℚ) * ((MINUTES_PER_TICK : ℚ) / 60) := by
  have haux := iterate_within_day s0 h0 he
  obtain ⟨hmod47, hdate47, hhist47, hen47⟩ := haux 47 le_rfl
  have hroll := step_roll (step^[47] s0) (by omega)
  have h48 : step^[48] s0 = step (step^[47] s0) := Function.iterate_succ_apply' step 47 s0
  have hsum : (step^[47] s0).energy_today
        + (tickPower (step^[47] s0) : ℚ) * ((MINUTES_PER_TICK : ℚ) / 60)
      = ∑ i ∈ Finset.range 48,
          (tickPower (step^[i] s0) : ℚ) * ((MINUTES_PER_TICK : ℚ) / 60) := by
    rw [Finset.sum_range_succ, hen47]
  have hS0 : 0 ≤ ∑ i ∈ Finset.range 48,
      (tickPower (step^[i] s0) : ℚ) * ((MINUTES_PER_TICK : ℚ) / 60) := by
    refine Finset.sum_nonneg fun i _ => mul_nonneg ?_ ?_
    · exact_mod_cast tickPower_nonneg _
    · norm_num [MINUTES_PER_TICK]
  refine ⟨{ date := prevDate (nextDate (step^[47] s0).sim_time.date)
            year := (nextDate (step^[47] s0).sim_time.date).year
            month := monthAbbrev (nextDate (step^[47] s0).sim_time.date).month
            condition := (get_live_telemetry (step^[47] s0).sim_time (step^[47] s0).rng).1.condition
            peak_Temp_C := pyInt (get_live_telemetry (step^[47] s0).sim_time (step^[47] s0).rng).1.ambient
            yield_Wh := pyIntQ ((step^[47] s0).energy_today
              + (tickPower (step^[47] s0) : ℚ) * ((MINUTES_PER_TICK : ℚ) / 60)) },
    ?_, ?_, ?_, ?_, ?_, fun k hk => ⟨(haux k hk).2.2.1, (haux k hk).2.2.2⟩⟩
  · rw [h48, hroll, hhist47]
  · show pyIntQ ((step^[47] s0).energy_today
        + (tickPower (step^[47] s0) : ℚ) * ((MINUTES_PER_TICK : ℚ) / 60)) = _
    rw [hsum]
  · show (pyIntQ ((step^[47] s0).energy_today
        + (tickPower (step^[47] s0) : ℚ) * ((MINUTES_PER_TICK : ℚ) / 60)) : ℚ) ≤ _
    rw [hsum, pyIntQ_of_nonneg hS0]
    exact_mod_cast Int.floor_le _
  · show _ < (pyIntQ ((step^[47] s0).energy_today
        + (tickPower (step^[47] s0) : ℚ) * ((MINUTES_PER_TICK : ℚ) / 60)) : ℚ)
    rw [hsum, pyIntQ_of_nonneg hS0]
    exact_mod_cast Int.sub_one_lt_floor _
  · rw [h48, hroll]

/-- Witness for C3 from a concrete midnight state. -/
theorem C3_day_integration_and_reset_witness :
    (⟨⟨⟨2025, 4, 10⟩, 0⟩, 0, [], [], []⟩ : SimState).sim_time.minuteOfDay = 0
    ∧ (⟨⟨⟨2025, 4, 10⟩, 0⟩, 0, [], [], []⟩ : SimState).energy_today = 0
    ∧ (∃ rec : DailyRecord,
        (step^[48] (⟨⟨⟨2025, 4, 10⟩, 0⟩, 0, [], [], []⟩ : SimState)).history_db
          = (⟨⟨⟨2025, 4, 10⟩, 0⟩, 0, [], [], []⟩ : SimState).history_db ++ [rec]
        ∧ rec.yield_Wh = pyIntQ (∑ i ∈ Finset.range 48,
            (tickPower (step^[i] (⟨⟨⟨2025, 4, 10⟩, 0⟩, 0, [], [], []⟩ : SimState)) : ℚ)
              * ((MINUTES_PER_TICK : ℚ) / 60))
        ∧ (rec.yield_Wh : ℚ) ≤ ∑ i ∈ Finset.range 48,
            (tickPower (step^[i] (⟨⟨⟨2025, 4, 10⟩, 0⟩, 0, [], [], []⟩ : SimState)) : ℚ)
              * ((MINUTES_PER_TICK : ℚ) / 60)
        ∧ (∑ i ∈ Finset.range 48,
            (tickPower (step^[i] (⟨⟨⟨2025, 4, 10⟩, 0⟩, 0, [], [], []⟩ : SimState)) : ℚ)
              * ((MINUTES_PER_TICK : ℚ) / 60)) - 1
            < (rec.yield_Wh : ℚ)
        ∧ (step^[48] (⟨⟨⟨2025, 4, 10⟩, 0⟩, 0, [], [], []⟩ : SimState)).energy_today = 0
        ∧ ∀ k, k ≤ 47 →
            (step^[k] (⟨⟨⟨2025, 4, 10⟩, 0⟩, 0, [], [], []⟩ : SimState)).history_db
              = (⟨⟨⟨2025, 4, 10⟩, 0⟩, 0, [], [], []⟩ : SimState).history_db
            ∧ (step^[k] (⟨⟨⟨2025, 4, 10⟩, 0⟩, 0, [], [], []⟩ : SimState)).energy_today
              = ∑ i ∈ Finset.range k,
                  (tickPower (step^[i] (⟨⟨⟨2025, 4, 10⟩, 0⟩, 0, [], [], []⟩ : SimState)) : ℚ)
                    * ((MINUTES_PER_TICK : ℚ) / 60)) :=
  ⟨rfl, rfl, C3_day_integration_and_reset _ rfl rfl⟩

end SolarX
